import Mathlib

/-!
# Verification of the bug-bounty-automation Change & Scope Engine

Shallow embedding of the scope validator (`src/scope/validator.py`), the
scope comparator (`src/scope/comparator.py`), the `ScopeData` value object
(`src/scope/base.py`) and the diff engine (`src/core/diff_engine.py`,
together with the asset repository `src/db/repositories.py` and the ORM
column semantics declared in `src/db/models.py`).

Modelling conventions:
* Python strings are Lean `String`s; `str.lower()` and `str.strip()` are
  modelled on ASCII characters (scope rules and asset names are ASCII).
* Python `datetime` values are modelled as integer timestamps (seconds);
  `a - b` on datetimes followed by `.total_seconds()` becomes integer
  subtraction.
* Python `float` arithmetic in the content-length threshold is modelled by
  exact rational arithmetic over `ℚ`.
* Fallible Python code is modelled with `Except`; in particular Python
  attribute lookup on `ScopeData` is modelled explicitly, because
  `ScopeComparator.compare` invokes a method name that `ScopeData` does not
  define.
-/

namespace BugBounty

/-- ASCII lowercase conversion of one character, as done by `str.lower()`
for the ASCII range (scope rules and hostnames are ASCII). -/
def lowerChar (c : Char) : Char :=
  if c.toNat ≥ 65 ∧ c.toNat ≤ 90 then Char.ofNat (c.toNat + 32) else c

/-- `str.lower()` on an ASCII string. -/
def pyLower (s : String) : String :=
  ⟨s.data.map lowerChar⟩

/-- Whitespace characters removed by Python `str.strip()` (ASCII subset). -/
def isPyWhitespace (c : Char) : Bool :=
  c = ' ' || c = '\t' || c = '\n' || c = '\r' || c = '\x0b' || c = '\x0c'

/-- `str.strip()`: drop leading and trailing whitespace. -/
def pyStrip (s : String) : String :=
  ⟨(s.data.dropWhile isPyWhitespace).reverse.dropWhile isPyWhitespace |>.reverse⟩

/-- Membership of a character in a string (`c in s` for one character). -/
def containsChar (s : String) (c : Char) : Bool :=
  s.data.contains c

/-- Python `str.split(sep)` for a one-character separator: groups between
occurrences of the separator; the empty string splits to `[""]`. -/
def splitOnChar (sep : Char) : List Char → List (List Char)
  | [] => [[]]
  | c :: cs =>
    match splitOnChar sep cs with
    | [] => [[c]]
    | g :: gs => if c = sep then [] :: g :: gs else (c :: g) :: gs

/-- The normalisation `ScopeValidator.validate` applies to its candidate:
`asset.lower().strip()` (validator.py line 123).  Nothing else is stripped:
scheme prefixes and trailing slashes are only removed from *scope items* at
parse time (`BaseScopeParser.normalize_scope_item`, base.py). -/
def normalizeAsset (asset : String) : String :=
  pyStrip (pyLower asset)

/-! ## IP address and network parsing

Model of the parts of the Python `ipaddress` standard library used by
`ScopeValidator`: `ip_address` on dotted-quad IPv4 literals and
`ip_network(rule, strict=False)` on IPv4/IPv6 CIDR strings.  Octets must be
1-3 ASCII digits without leading zeros and at most 255; the prefix may be a
decimal prefix length or (for IPv4) a dotted-quad netmask or hostmask.
IPv6 rules are recognised by their textual grammar but carry no membership
structure, because a v6 network never contains a v4 address and
`validate` only ever queries networks with v4 literals (zone-id suffixes
are not modelled). -/

/-- Nonempty all-ASCII-digit string (`str.isdigit()` for ASCII). -/
def isDigitStr (cs : List Char) : Bool :=
  !cs.isEmpty && cs.all (fun c => '0' ≤ c && c ≤ '9')

/-- Decimal value of a digit string. -/
def digitVal (cs : List Char) : Nat :=
  cs.foldl (fun n c => n * 10 + (c.toNat - 48)) 0

/-- One IPv4 octet per `ipaddress._parse_octet`: 1-3 ASCII digits, no
leading zero (except `"0"` itself), value at most 255. -/
def parseOctet (cs : List Char) : Option Nat :=
  if !isDigitStr cs then none
  else if cs.length > 3 then none
  else if cs.length > 1 ∧ cs.head? = some '0' then none
  else if digitVal cs ≤ 255 then some (digitVal cs) else none

/-- Dotted-quad IPv4 literal to its 32-bit value, per
`ipaddress.IPv4Address`. -/
def parseIPv4 (s : String) : Option Nat :=
  match splitOnChar '.' s.data with
  | [a, b, c, d] => do
    let va ← parseOctet a
    let vb ← parseOctet b
    let vc ← parseOctet c
    let vd ← parseOctet d
    pure (va * 16777216 + vb * 65536 + vc * 256 + vd)
  | _ => none

/-- `ScopeValidator._is_ip`: the anchored regular expression
`\d{1,3}\.\d{1,3}\.\d{1,3}\.\d{1,3}` (four 1-3 digit groups). -/
def isIpStr (s : String) : Bool :=
  match splitOnChar '.' s.data with
  | [a, b, c, d] =>
    [a, b, c, d].all fun g =>
      decide (1 ≤ g.length) && decide (g.length ≤ 3) &&
        g.all (fun c => '0' ≤ c && c ≤ '9')
  | _ => false

/-- The 32-bit netmask with `p` leading one bits. -/
def maskBits (p : Nat) : Nat := 2 ^ 32 - 2 ^ (32 - p)

/-- Recover a prefix length from a dotted-quad netmask value. -/
def pfxFromNetmask (m : Nat) : Option Nat :=
  (List.range 33).find? (fun p => maskBits p == m)

/-- Recover a prefix length from a dotted-quad hostmask value. -/
def pfxFromHostmask (m : Nat) : Option Nat :=
  (List.range 33).find? (fun p => maskBits p == (m ^^^ 4294967295))

/-- IPv4 prefix part per `IPv4Network._make_netmask`: a decimal prefix
length up to 32, else a dotted-quad netmask, else a hostmask. -/
def parsePfx4 (cs : List Char) : Option Nat :=
  if isDigitStr cs then
    if digitVal cs ≤ 32 then some (digitVal cs) else none
  else
    match parseIPv4 ⟨cs⟩ with
    | some m => (pfxFromNetmask m).orElse (fun _ => pfxFromHostmask m)
    | none => none

/-- One IPv6 group: 1-4 hexadecimal digits. -/
def isHextet (cs : List Char) : Bool :=
  decide (1 ≤ cs.length) && decide (cs.length ≤ 4) &&
    cs.all (fun c => ('0' ≤ c && c ≤ '9') || ('a' ≤ c && c ≤ 'f') || ('A' ≤ c && c ≤ 'F'))

/-- Recogniser for IPv6 address literals, following the algorithm of
`ipaddress._BaseV6._ip_int_from_string`: split on `:`, expand a trailing
embedded IPv4 literal into two groups, allow at most one `::` gap, and
check every explicit group is a hextet. -/
def isIPv6 (s : String) : Bool :=
  let parts0 := splitOnChar ':' s.data
  if decide (parts0.length < 3) then false
  else
    let lastPart := parts0.getLastD []
    let partsOpt : Option (List (List Char)) :=
      if lastPart.contains '.' then
        match parseIPv4 ⟨lastPart⟩ with
        | some _ => some (parts0.dropLast ++ [['0'], ['0']])
        | none => none
      else some parts0
    match partsOpt with
    | none => false
    | some ps =>
      let n := ps.length
      if decide (n > 9) then false
      else
        match (List.range n).filter
            (fun i => decide (1 ≤ i) && decide (i ≤ n - 2) && (ps.getD i [' ']).isEmpty) with
        | [] => decide (n = 8) && ps.all isHextet
        | [i] =>
          let headEmpty := (ps.getD 0 [' ']).isEmpty
          let lastEmpty := (ps.getLastD [' ']).isEmpty
          let hiOk := if headEmpty then decide (i = 1) else true
          let loOk := if lastEmpty then decide (i = n - 2) else true
          let hi := if headEmpty then 0 else i
          let lo := if lastEmpty then 0 else n - i - 1
          hiOk && loOk && decide (hi + lo ≤ 7) &&
            (ps.take hi).all isHextet && (ps.drop (n - lo)).all isHextet
        | _ => false

/-- A compiled scope network: an IPv4 network keeps its (unmasked) address
and prefix length; an IPv6 network is kept abstract since it can never
contain the IPv4 literals `validate` queries with. -/
inductive IpNetwork where
  | v4 (addr : Nat) (pfx : Nat)
  | v6
deriving DecidableEq

/-- `ip in network` for a 32-bit IPv4 value (`strict=False` masking means
membership compares the top `pfx` bits). -/
def containsIp (n : IpNetwork) (ip : Nat) : Bool :=
  match n with
  | .v4 addr pfx => ip >>> (32 - pfx) == addr >>> (32 - pfx)
  | .v6 => false

/-- `ipaddress.ip_network(rule, strict=False)` on a string containing a
`/`: exactly one slash, an IPv4 or IPv6 address part, and a valid prefix
part (decimal at most 128 for IPv6). -/
def parseNetwork (rule : String) : Option IpNetwork :=
  match splitOnChar '/' rule.data with
  | [a, p] =>
    match parseIPv4 ⟨a⟩ with
    | some addr => (parsePfx4 p).map (IpNetwork.v4 addr)
    | none =>
      if isIPv6 ⟨a⟩ ∧ isDigitStr p ∧ digitVal p ≤ 128 then some IpNetwork.v6
      else none
  | _ => none

/-! ## Scope validator (`src/scope/validator.py`)

`ScopeValidator._prepare_patterns` sorts the raw rule strings of each scope
list into three buckets (wildcard patterns, CIDR networks, exact entries);
`validate` then checks the out-of-scope buckets before the in-scope ones.
A wildcard rule is compiled to the anchored case-insensitive regular
expression `re.escape(rule).replace("\x5c*", ".*")`; since escaping keeps
every non-`*` character literal, matching is glob matching in which `*`
stands for any run of non-newline characters. -/

/-- Anchored, case-insensitive glob matching: the compiled wildcard
pattern matches the candidate in full, with each `*` matching any
(possibly empty) run of characters other than a newline (regex `.` does
not match a newline). -/
def globMatch : List Char → List Char → Bool
  | [], [] => true
  | [], _ :: _ => false
  | c :: ps, [] => if c = '*' then globMatch ps [] else false
  | c :: ps, d :: t =>
    if c = '*' then
      globMatch ps (d :: t) || (!(d == '\n') && globMatch (c :: ps) t)
    else
      lowerChar c == lowerChar d && globMatch ps t
termination_by p s => p.length + s.length
decreasing_by all_goals simp <;> omega

/-- The two scope lists of a `ScopeData` snapshot (the metadata fields
carried for presentation are omitted; neither the validator, the checksum
nor the comparator reads them). -/
structure ScopeData where
  in_scope : List String
  out_of_scope : List String
deriving DecidableEq

/-- One compiled bucket triple, as built by
`ScopeValidator._prepare_patterns` for each of the two scope lists.
Python's exact-match `set` is modelled as the list of added entries
(membership is all that is consulted). -/
structure RuleSet where
  patterns : List String
  cidrs : List (String × IpNetwork)
  exactSet : List String
deriving DecidableEq

def emptyRuleSet : RuleSet := ⟨[], [], []⟩

/-- `ScopeValidator._categorize_rule`: a rule containing `*` is a wildcard
pattern; otherwise a rule containing `/` is a CIDR if it parses and is
dropped with a warning if it does not; every other rule is an exact entry,
stored lowercased. -/
def categorizeRule (rule : String) (rs : RuleSet) : RuleSet :=
  if containsChar rule '*' then { rs with patterns := rs.patterns ++ [rule] }
  else if containsChar rule '/' then
    match parseNetwork rule with
    | some n => { rs with cidrs := rs.cidrs ++ [(rule, n)] }
    | none => rs
  else { rs with exactSet := rs.exactSet ++ [pyLower rule] }

/-- Compile one scope list into its rule buckets. -/
def compileRules (items : List String) : RuleSet :=
  items.foldl (fun rs item => categorizeRule item rs) emptyRuleSet

/-- A `ScopeValidator` holds the compiled buckets of both scope lists. -/
structure ScopeValidator where
  inRules : RuleSet
  outRules : RuleSet
deriving DecidableEq

/-- `ScopeValidator.__init__` + `_prepare_patterns`. -/
def mkValidator (sd : ScopeData) : ScopeValidator :=
  ⟨compileRules sd.in_scope, compileRules sd.out_of_scope⟩

/-- Result of scope validation (validator.py `ValidationResult`). -/
structure ValidationResult where
  asset : String
  in_scope : Bool
  reason : String
  matched_rule : Option String
deriving DecidableEq

/-- Linear scan of the wildcard patterns, first match wins. -/
def findPattern (pats : List String) (al : String) : Option String :=
  pats.find? (fun r => globMatch r.data al.data)

/-- The CIDR phase of `validate`: only attempted when the candidate looks
like a dotted-quad literal (`_is_ip`); an unparsable literal is swallowed
(`except ValueError: pass`) and matches no network. -/
def cidrLookup (cidrs : List (String × IpNetwork)) (al : String) : Option (String × IpNetwork) :=
  if isIpStr al then
    match parseIPv4 al with
    | some ip => cidrs.find? (fun rn => containsIp rn.2 ip)
    | none => none
  else none

/-- `ScopeValidator._is_subdomain_of` applied over the exact in-scope
entries: the candidate differs from the entry and ends with `"." + entry`. -/
def findSubdomainRule (exacts : List String) (al : String) : Option String :=
  exacts.find? (fun dom => decide (al ≠ dom) && ('.' :: dom.data).isSuffixOf al.data)

/-- The classification performed by `ScopeValidator.validate` on the
already-normalised candidate, returning `(in_scope, reason,
matched_rule)`.  The branch order is the source order: out-of-scope exact,
out-of-scope patterns, out-of-scope CIDRs, then the in-scope buckets, then
subdomain widening, then the default. -/
def validateNormalized (v : ScopeValidator) (al : String) : Bool × String × Option String :=
  if v.outRules.exactSet.contains al then
    (false, "Explicitly out of scope", some al)
  else
    match findPattern v.outRules.patterns al with
    | some rule => (false, "Matches out-of-scope pattern", some rule)
    | none =>
      match cidrLookup v.outRules.cidrs al with
      | some rn => (false, "In out-of-scope CIDR range", some rn.1)
      | none =>
        if v.inRules.exactSet.contains al then
          (true, "Explicitly in scope", some al)
        else
          match findPattern v.inRules.patterns al with
          | some rule => (true, "Matches in-scope pattern", some rule)
          | none =>
            match cidrLookup v.inRules.cidrs al with
            | some rn => (true, "In in-scope CIDR range", some rn.1)
            | none =>
              match findSubdomainRule v.inRules.exactSet al with
              | some dom => (true, "Subdomain of in-scope domain", some dom)
              | none => (false, "Not found in program scope", none)

/-- `ScopeValidator.validate`: normalise the candidate with
`asset.lower().strip()` and classify it. -/
def ScopeValidator.validate (v : ScopeValidator) (asset : String) : ValidationResult :=
  let r := validateNormalized v (normalizeAsset asset)
  ⟨asset, r.1, r.2.1, r.2.2⟩

/-- The candidate (already normalised) matches at least one out-of-scope
rule: an exact entry, a wildcard pattern, or — when it is an IPv4 literal —
a CIDR network. -/
def outMatches (v : ScopeValidator) (al : String) : Bool :=
  v.outRules.exactSet.contains al ||
    v.outRules.patterns.any (fun r => globMatch r.data al.data) ||
    (cidrLookup v.outRules.cidrs al).isSome

/-! ## Scope comparator (`src/scope/comparator.py`) and checksum
(`src/scope/base.py`)

`ScopeData.calculate_checksum` (base.py lines 38-46) is the SHA256 digest
of the canonical JSON of the two *sorted* scope lists.  The digest is
modelled by its pre-image, the pair of sorted lists: two snapshots have
equal checksums exactly when their sorted lists coincide (hash collisions
are ignored).

`ScopeComparator.compare` (comparator.py) calls `previous.checksum()` and
`current.checksum()`.  `ScopeData` defines no method named `checksum` —
its only checksum method is `calculate_checksum`, and no other definition
or monkey-patch of `checksum` exists in the repository — so in Python this
attribute lookup raises `AttributeError` before any comparison work is
done.  Attribute lookup is therefore modelled explicitly
(`ScopeData.callMethod`), and `compare` returns an `Except`. -/

/-- Insert a string into an ascending list, before the first element not
below it (code-point order, decided by the core `String` order). -/
def insertSorted (x : String) : List String → List String
  | [] => [x]
  | y :: ys => if y < x then y :: insertSorted x ys else x :: y :: ys

/-- Python `sorted` on a list of strings (ascending code-point order). -/
def sortStrings (l : List String) : List String :=
  l.foldr insertSorted []

/-- `ScopeData.calculate_checksum`, modelled by the canonical pre-image of
the SHA256 digest: the sorted in-scope and out-of-scope lists. -/
def ScopeData.calculate_checksum (s : ScopeData) : List String × List String :=
  (sortStrings s.in_scope, sortStrings s.out_of_scope)

/-- Python attribute lookup of a checksum method on a `ScopeData` value:
base.py defines exactly one, `calculate_checksum`; any other name raises
`AttributeError`. -/
def ScopeData.callMethod (s : ScopeData) (name : String) :
    Except String (List String × List String) :=
  if name = "calculate_checksum" then Except.ok s.calculate_checksum
  else Except.error ("AttributeError: ScopeData object has no attribute " ++ name)

/-- The error raised by `ScopeComparator.compare`. -/
def checksumAttrError : String :=
  "AttributeError: ScopeData object has no attribute checksum"

/-- `ScopeChangeType` from db/models.py (the `unchanged` member is never
produced by the comparator). -/
inductive ScopeChangeType where
  | added
  | removed
  | modified
  | unchanged
deriving DecidableEq

/-- One scope change; `details` holds the `(from, to)` categories for a
moved item. -/
structure ScopeChange where
  change_type : ScopeChangeType
  item : String
  category : String
  details : Option (String × String)
deriving DecidableEq

/-- Results of comparing two scope snapshots.  Python's `set`-valued
unchanged fields are modelled as deduplicated lists. -/
structure ScopeComparison where
  changes : List ScopeChange
  additions : List ScopeChange
  removals : List ScopeChange
  modifications : List ScopeChange
  unchanged_in_scope : List String
  unchanged_out_scope : List String
  has_changes : Bool
deriving DecidableEq

/-- The set difference `set(xs) - set(ys)` as a deduplicated list (Python
set iteration order is arbitrary; all the comparator's outputs are treated
up to membership and multiplicity). -/
def pySetDiff (xs ys : List String) : List String :=
  xs.dedup.filter (fun i => decide (i ∉ ys))

/-- The set intersection `set(xs) & set(ys)` as a deduplicated list. -/
def pySetInter (xs ys : List String) : List String :=
  xs.dedup.filter (fun i => decide (i ∈ ys))

/-- The single `modified` change for an item moving out-of-scope →
in-scope. -/
def movedInChange (item : String) : ScopeChange :=
  ⟨ScopeChangeType.modified, item, "in_scope", some ("out_of_scope", "in_scope")⟩

/-- The single `modified` change for an item moving in-scope →
out-of-scope. -/
def movedOutChange (item : String) : ScopeChange :=
  ⟨ScopeChangeType.modified, item, "out_of_scope", some ("in_scope", "out_of_scope")⟩

def addedInChange (item : String) : ScopeChange :=
  ⟨ScopeChangeType.added, item, "in_scope", none⟩

def addedOutChange (item : String) : ScopeChange :=
  ⟨ScopeChangeType.added, item, "out_of_scope", none⟩

def removedInChange (item : String) : ScopeChange :=
  ⟨ScopeChangeType.removed, item, "in_scope", none⟩

def removedOutChange (item : String) : ScopeChange :=
  ⟨ScopeChangeType.removed, item, "out_of_scope", none⟩

/-- Phase 1 per-item outcome (`curr_in - prev_in`): a move when the item
was out-of-scope before, otherwise a plain addition. -/
def phase1Change (prevOut : List String) (i : String) : ScopeChange :=
  if i ∈ prevOut then movedInChange i else addedInChange i

/-- Phase 2 per-item outcome (`prev_in - curr_in`): nothing when the move
was already recorded in phase 1 (item also in `prev_out`), a move when the
item is now out-of-scope, otherwise a plain removal. -/
def phase2Change (prevOut currOut : List String) (i : String) : Option ScopeChange :=
  if i ∈ currOut then
    if i ∈ prevOut then none else some (movedOutChange i)
  else some (removedInChange i)

/-- Phase 3 per-item outcome (`curr_out - prev_out`): skipped when already
handled as a modification in phase 1. -/
def phase3Change (prevIn : List String) (i : String) : Option ScopeChange :=
  if i ∈ prevIn then none else some (addedOutChange i)

/-- Phase 4 per-item outcome (`prev_out - curr_out`): skipped when already
handled as a modification in phase 2. -/
def phase4Change (currIn : List String) (i : String) : Option ScopeChange :=
  if i ∈ currIn then none else some (removedOutChange i)

/-- The set-difference diff of `ScopeComparator.compare` (comparator.py
lines 99-185), i.e. everything after the checksum short-circuit.  The four
phases append to `changes` in source order; `additions` collects phases 1
and 3, `removals` phases 2 and 4, `modifications` phases 1 and 2. -/
def compareBody (previous current : ScopeData) : ScopeComparison :=
  let d1 := pySetDiff current.in_scope previous.in_scope
  let d2 := pySetDiff previous.in_scope current.in_scope
  let d3 := pySetDiff current.out_of_scope previous.out_of_scope
  let d4 := pySetDiff previous.out_of_scope current.out_of_scope
  let changes1 := d1.map (phase1Change previous.out_of_scope)
  let changes2 := d2.filterMap (phase2Change previous.out_of_scope current.out_of_scope)
  let changes3 := d3.filterMap (phase3Change previous.in_scope)
  let changes4 := d4.filterMap (phase4Change current.in_scope)
  let changes := changes1 ++ changes2 ++ changes3 ++ changes4
  { changes := changes
    additions :=
      d1.filterMap (fun i => if i ∈ previous.out_of_scope then none else some (addedInChange i)) ++
        changes3
    removals :=
      d2.filterMap (fun i => if i ∈ current.out_of_scope then none else some (removedInChange i)) ++
        changes4
    modifications :=
      d1.filterMap (fun i => if i ∈ previous.out_of_scope then some (movedInChange i) else none) ++
        d2.filterMap (fun i =>
          if i ∈ current.out_of_scope ∧ i ∉ previous.out_of_scope then some (movedOutChange i)
          else none)
    unchanged_in_scope := pySetInter previous.in_scope current.in_scope
    unchanged_out_scope := pySetInter previous.out_of_scope current.out_of_scope
    has_changes := !changes.isEmpty }

/-- The comparison returned by the checksum short-circuit: no changes, and
both current lists reported unchanged. -/
def noChangesComparison (current : ScopeData) : ScopeComparison :=
  { changes := []
    additions := []
    removals := []
    modifications := []
    unchanged_in_scope := current.in_scope.dedup
    unchanged_out_scope := current.out_of_scope.dedup
    has_changes := false }

/-- `ScopeComparator.compare`: the source first evaluates
`previous.checksum()` and `current.checksum()` (for its log line and the
short-circuit); the attribute lookup is modelled by `callMethod`.  Were the
lookups to succeed, equal checksums would short-circuit to
`noChangesComparison` and unequal ones would run the set-difference
diff. -/
def ScopeComparator.compare (previous current : ScopeData) :
    Except String ScopeComparison :=
  match previous.callMethod "checksum", current.callMethod "checksum" with
  | Except.ok pc, Except.ok cc =>
    Except.ok (if pc = cc then noChangesComparison current else compareBody previous current)
  | Except.error e, _ => Except.error e
  | Except.ok _, Except.error e => Except.error e

/-! ## Diff engine (`src/core/diff_engine.py`), asset repository
(`src/db/repositories.py`) and ORM column semantics (`src/db/models.py`)

The stored `Asset` row keeps the fields the engine reads and writes;
identity fields (`program_id`, `asset_type`, `value`) and the free-form
`metadata` column play no role in the claims and are omitted.  Timestamps
are integer seconds; nullable columns are `Option`s.

A probe record (`new_data` dict) is a partial record: an outer `Option`
models key presence, the inner type is the stored field's type (itself an
`Option` for nullable columns).  The engine writes any key that names an
asset attribute; probe records carry the six monitored fields plus
`is_alive` and `cnames`.

`Asset.updated_at` and `Asset.last_seen` are declared in models.py with
`onupdate=func.now()`: whenever the ORM session flushes an `UPDATE` for a
dirty row, any such column that was not explicitly assigned is set to the
current time.  A row is dirty exactly when some attribute's value differs
from the value loaded from the database. -/

/-- Stored asset state (models.py `Asset`, engine-visible fields). -/
structure Asset where
  resolved_ips : Option (List String)
  cnames : Option (List String)
  http_status : Option Int
  content_length : Option Int
  page_title : Option String
  technologies : Option (List String)
  response_hash : Option String
  is_alive : Bool
  first_seen : Int
  last_seen : Int
  updated_at : Int
deriving DecidableEq

/-- A probe record (`new_data`): outer `Option` is key presence. -/
structure NewData where
  http_status : Option (Option Int) := none
  content_length : Option (Option Int) := none
  technologies : Option (Option (List String)) := none
  page_title : Option (Option String) := none
  response_hash : Option (Option String) := none
  resolved_ips : Option (Option (List String)) := none
  is_alive : Option Bool := none
  cnames : Option (Option (List String)) := none
deriving DecidableEq

/-- `x or []` then `set(...)` equality on two optional string lists
(technologies / resolved_ips comparison). -/
def setEqOpt (xs ys : Option (List String)) : Bool :=
  let x := xs.getD []
  let y := ys.getD []
  decide (∀ s ∈ x, s ∈ y) && decide (∀ s ∈ y, s ∈ x)

/-- Python truthiness of an optional string (`None` and `""` are falsy),
used by the response-hash guard `if old_hash and new_hash and ...`. -/
def truthyStr (s : Option String) : Bool :=
  match s with
  | none => false
  | some t => !(t = "")

/-- The content-length significance test (diff_engine.py lines 104-122):
`old_length = asset.content_length or 0`, `new_length = new or 0`, and the
change is significant only when `old_length > 0` and
`abs(new_length - old_length) / old_length > 0.1`.  The float quotient is
modelled exactly: for `old_length > 0` the quotient exceeds `1/10` iff
`old_length < 10 * abs(new_length - old_length)` over the integers (the
rational form is proved equivalent in `content_length_threshold`). -/
def contentLengthSignificant (oldLen newLen : Int) : Bool :=
  decide (0 < oldLen) && decide (oldLen < 10 * ((newLen - oldLen).natAbs : Int))

/-- http_status block of `_detect_changes`: any inequality counts. -/
def statusChanges (a : Asset) (nd : NewData) : List String :=
  match nd.http_status with
  | none => []
  | some v => if a.http_status ≠ v then ["http_status"] else []

/-- content_length block of `_detect_changes`. -/
def contentLengthChanges (a : Asset) (nd : NewData) : List String :=
  match nd.content_length with
  | none => []
  | some v =>
    if contentLengthSignificant (a.content_length.getD 0) (v.getD 0) then ["content_length"]
    else []

/-- technologies block of `_detect_changes`: compared as sets. -/
def technologiesChanges (a : Asset) (nd : NewData) : List String :=
  match nd.technologies with
  | none => []
  | some v => if !setEqOpt a.technologies v then ["technologies"] else []

/-- page_title block of `_detect_changes`: any inequality counts. -/
def pageTitleChanges (a : Asset) (nd : NewData) : List String :=
  match nd.page_title with
  | none => []
  | some v => if a.page_title ≠ v then ["page_title"] else []

/-- response_hash block of `_detect_changes`: both hashes must be truthy
and differ. -/
def responseHashChanges (a : Asset) (nd : NewData) : List String :=
  match nd.response_hash with
  | none => []
  | some v =>
    if truthyStr a.response_hash && truthyStr v && decide (a.response_hash ≠ v) then
      ["response_hash"]
    else []

/-- resolved_ips block of `_detect_changes`: compared as sets. -/
def resolvedIpsChanges (a : Asset) (nd : NewData) : List String :=
  match nd.resolved_ips with
  | none => []
  | some v => if !setEqOpt a.resolved_ips v then ["resolved_ips"] else []

/-- `DiffEngine._detect_changes`: the changed-field names in source order.
The accompanying `_record_change` persistence calls append one
`AssetChange` row per reported field; only the returned field list is
modelled. -/
def detect_changes (a : Asset) (nd : NewData) : List String :=
  statusChanges a nd ++ contentLengthChanges a nd ++ technologiesChanges a nd ++
    pageTitleChanges a nd ++ responseHashChanges a nd ++ resolvedIpsChanges a nd

/-- The `for key, val in new_data.items(): setattr(asset, key, val)` loop:
each present key overwrites the corresponding attribute. -/
def applyNewData (a : Asset) (nd : NewData) : Asset :=
  { a with
    http_status := nd.http_status.getD a.http_status
    content_length := nd.content_length.getD a.content_length
    technologies := nd.technologies.getD a.technologies
    page_title := nd.page_title.getD a.page_title
    response_hash := nd.response_hash.getD a.response_hash
    resolved_ips := nd.resolved_ips.getD a.resolved_ips
    is_alive := nd.is_alive.getD a.is_alive
    cnames := nd.cnames.getD a.cnames }

/-- `AssetRepository.create_or_update` on an existing asset, as called by
`compare_and_update` (no extra kwargs): unconditionally sets
`last_seen = datetime.utcnow()` and `is_alive = True`. -/
def create_or_update_existing (a : Asset) (now : Int) : Asset :=
  { a with last_seen := now, is_alive := true }

/-- The ORM flush at the end of the unit of work: if any attribute differs
from the loaded row, an `UPDATE` is emitted and the `onupdate=func.now()`
column `updated_at` (not assigned anywhere in the engine) is set to the
current time; otherwise nothing is written. -/
def flushAsset (loaded a : Asset) (now : Int) : Asset :=
  if a = loaded then a else { a with updated_at := now }

/-- `DiffEngine.compare_and_update` on an existing asset
(`is_new = false`), through to the session flush: fetch-and-touch via
`create_or_update_existing`, detect changes, apply the probe record, then
flush.  Returns the committed row and the changed-field list. -/
def compare_and_update_existing (a : Asset) (nd : NewData) (now : Int) :
    Asset × List String :=
  let touched := create_or_update_existing a now
  let changed := detect_changes touched nd
  let written := applyNewData touched nd
  (flushAsset a written now, changed)

/-- `DiffEngine.should_scan`: decision rules in source order, first match
wins.  `datetime.utcnow()` is the parameter `now`; datetime differences in
seconds are integer differences. -/
def should_scan (a : Asset) (force : Bool) (now : Int) : Bool × String :=
  if force then (true, "Force scan requested")
  else if now - a.first_seen < 300 then (true, "New asset (first scan)")
  else if now - a.updated_at < 3600 then (true, "Recently modified asset")
  else if !a.is_alive then (false, "Asset is no longer alive")
  else if now - a.last_seen > 86400 then (true, "Periodic scan (24h)")
  else (false, "No changes detected, skip scan")

/-! ## Supporting lemmas -/

theorem insertSorted_perm (x : String) (l : List String) :
    (insertSorted x l).Perm (x :: l) := by
  induction l with
  | nil => rfl
  | cons y ys ih =>
    unfold insertSorted
    split
    · exact ((ih.cons y).trans (List.Perm.swap x y ys))
    · exact List.Perm.refl _

theorem sortStrings_perm (l : List String) : (sortStrings l).Perm l := by
  induction l with
  | nil => rfl
  | cons x xs ih => exact (insertSorted_perm x (sortStrings xs)).trans (ih.cons x)

theorem insertSorted_sorted (x : String) (l : List String)
    (h : l.Sorted (· ≤ ·)) : (insertSorted x l).Sorted (· ≤ ·) := by
  induction l with
  | nil => simp [insertSorted]
  | cons y ys ih =>
    rw [List.sorted_cons] at h
    unfold insertSorted
    split
    · rename_i hyx
      rw [List.sorted_cons]
      refine ⟨?_, ih h.2⟩
      intro z hz
      rcases List.mem_cons.mp ((insertSorted_perm x ys).mem_iff.mp hz) with hz | hz
      · subst hz; exact le_of_lt hyx
      · exact h.1 z hz
    · rename_i hyx
      rw [List.sorted_cons]
      exact ⟨fun z hz => by
        rcases List.mem_cons.mp hz with hz | hz
        · exact hz ▸ not_lt.mp hyx
        · exact le_trans (not_lt.mp hyx) (h.1 z hz), List.sorted_cons.mpr h⟩

theorem sortStrings_sorted (l : List String) : (sortStrings l).Sorted (· ≤ ·) := by
  induction l with
  | nil => simp [sortStrings]
  | cons x xs ih => exact insertSorted_sorted x (sortStrings xs) ih

theorem sortStrings_eq_of_perm {l₁ l₂ : List String} (h : l₁.Perm l₂) :
    sortStrings l₁ = sortStrings l₂ :=
  List.eq_of_perm_of_sorted
    (((sortStrings_perm l₁).trans h).trans (sortStrings_perm l₂).symm)
    (sortStrings_sorted l₁) (sortStrings_sorted l₂)

theorem mem_pySetDiff {i : String} {xs ys : List String} :
    i ∈ pySetDiff xs ys ↔ i ∈ xs ∧ i ∉ ys := by
  simp [pySetDiff, List.mem_filter, List.mem_dedup]

theorem nodup_pySetDiff (xs ys : List String) : (pySetDiff xs ys).Nodup :=
  (List.nodup_dedup xs).filter _

theorem phase1Change_item (po : List String) (i : String) :
    (phase1Change po i).item = i := by
  unfold phase1Change; split <;> rfl

theorem phase2Change_item {po co : List String} {i : String} {ch : ScopeChange}
    (h : phase2Change po co i = some ch) : ch.item = i := by
  unfold phase2Change at h
  split at h
  · split at h
    · exact absurd h (by simp)
    · cases h; rfl
  · cases h; rfl

theorem phase2Change_none {po co : List String} {i : String}
    (h1 : i ∈ co) (h2 : i ∈ po) : phase2Change po co i = none := by
  unfold phase2Change; rw [if_pos h1, if_pos h2]

theorem phase3Change_item {pi0 : List String} {i : String} {ch : ScopeChange}
    (h : phase3Change pi0 i = some ch) : ch.item = i ∧ i ∉ pi0 := by
  unfold phase3Change at h
  split at h
  · exact absurd h (by simp)
  · cases h; exact ⟨rfl, by assumption⟩

theorem phase4Change_item {ci : List String} {i : String} {ch : ScopeChange}
    (h : phase4Change ci i = some ch) : ch.item = i ∧ i ∉ ci := by
  unfold phase4Change at h
  split at h
  · exact absurd h (by simp)
  · cases h; exact ⟨rfl, by assumption⟩

theorem flushAsset_fields (loaded a : Asset) (now : Int) :
    (flushAsset loaded a now).resolved_ips = a.resolved_ips ∧
    (flushAsset loaded a now).cnames = a.cnames ∧
    (flushAsset loaded a now).http_status = a.http_status ∧
    (flushAsset loaded a now).content_length = a.content_length ∧
    (flushAsset loaded a now).page_title = a.page_title ∧
    (flushAsset loaded a now).technologies = a.technologies ∧
    (flushAsset loaded a now).response_hash = a.response_hash ∧
    (flushAsset loaded a now).is_alive = a.is_alive ∧
    (flushAsset loaded a now).first_seen = a.first_seen ∧
    (flushAsset loaded a now).last_seen = a.last_seen := by
  unfold flushAsset; split <;> simp

theorem statusChanges_sub (a : Asset) (nd : NewData) :
    statusChanges a nd = [] ∨ statusChanges a nd = ["http_status"] := by
  unfold statusChanges; split
  · exact Or.inl rfl
  · split
    · exact Or.inr rfl
    · exact Or.inl rfl

theorem contentLengthChanges_sub (a : Asset) (nd : NewData) :
    contentLengthChanges a nd = [] ∨ contentLengthChanges a nd = ["content_length"] := by
  unfold contentLengthChanges; split
  · exact Or.inl rfl
  · split
    · exact Or.inr rfl
    · exact Or.inl rfl

theorem technologiesChanges_sub (a : Asset) (nd : NewData) :
    technologiesChanges a nd = [] ∨ technologiesChanges a nd = ["technologies"] := by
  unfold technologiesChanges; split
  · exact Or.inl rfl
  · split
    · exact Or.inr rfl
    · exact Or.inl rfl

theorem pageTitleChanges_sub (a : Asset) (nd : NewData) :
    pageTitleChanges a nd = [] ∨ pageTitleChanges a nd = ["page_title"] := by
  unfold pageTitleChanges; split
  · exact Or.inl rfl
  · split
    · exact Or.inr rfl
    · exact Or.inl rfl

theorem responseHashChanges_sub (a : Asset) (nd : NewData) :
    responseHashChanges a nd = [] ∨ responseHashChanges a nd = ["response_hash"] := by
  unfold responseHashChanges; split
  · exact Or.inl rfl
  · split
    · exact Or.inr rfl
    · exact Or.inl rfl

theorem resolvedIpsChanges_sub (a : Asset) (nd : NewData) :
    resolvedIpsChanges a nd = [] ∨ resolvedIpsChanges a nd = ["resolved_ips"] := by
  unfold resolvedIpsChanges; split
  · exact Or.inl rfl
  · split
    · exact Or.inr rfl
    · exact Or.inl rfl

theorem mem_detect_changes_content (a : Asset) (nd : NewData) :
    "content_length" ∈ detect_changes a nd ↔
      "content_length" ∈ contentLengthChanges a nd := by
  unfold detect_changes
  simp only [List.mem_append]
  rcases statusChanges_sub a nd with h1 | h1 <;>
    rcases technologiesChanges_sub a nd with h3 | h3 <;>
    rcases pageTitleChanges_sub a nd with h4 | h4 <;>
    rcases responseHashChanges_sub a nd with h5 | h5 <;>
    rcases resolvedIpsChanges_sub a nd with h6 | h6 <;>
    simp [h1, h3, h4, h5, h6]

theorem contentLengthChanges_eq (a : Asset) (v : Option Int) (nd : NewData)
    (h : nd.content_length = some v) :
    contentLengthChanges a nd =
      if contentLengthSignificant (a.content_length.getD 0) (v.getD 0) then
        ["content_length"]
      else [] := by
  unfold contentLengthChanges; rw [h]

/-- Concrete diff-engine fixture: stored content length 1000. -/
def asset1000 : Asset := ⟨none, none, none, some 1000, none, none, none, true, 0, 0, 0⟩

/-- Concrete diff-engine fixture: stored content length 0. -/
def asset0 : Asset := ⟨none, none, none, some 0, none, none, none, true, 0, 0, 0⟩

def nd1100 : NewData := { content_length := some (some 1100) }

def nd1101 : NewData := { content_length := some (some 1101) }

def nd500 : NewData := { content_length := some (some 500) }

/-! ## Claim theorems -/

/-- **C2.** The claim states that equal-checksum snapshot pairs make
`ScopeComparator.compare` return immediately with `has_changes = false`,
the checksum being order-insensitive.  The checksum
(`ScopeData.calculate_checksum`) is indeed order-insensitive (first
conjunct), but `compare` invokes `previous.checksum()`, a method
`ScopeData` does not define, so every call — equal checksums included —
raises `AttributeError` instead of returning a comparison (second
conjunct). -/
theorem compare_checksum_method_missing :
    (∀ p c : ScopeData, p.in_scope.Perm c.in_scope →
      p.out_of_scope.Perm c.out_of_scope →
      p.calculate_checksum = c.calculate_checksum) ∧
    (∀ p c : ScopeData,
      ScopeComparator.compare p c = Except.error checksumAttrError) := by
  constructor
  · intro p c h1 h2
    unfold ScopeData.calculate_checksum
    rw [sortStrings_eq_of_perm h1, sortStrings_eq_of_perm h2]
  · intro p c
    rfl

/-- Witness for `compare_checksum_method_missing` at snapshots that list
the same scope in different orders. -/
theorem compare_checksum_method_missing_witness :
    (ScopeData.mk ["b.com", "a.com"] ["x.com"]).calculate_checksum =
      (ScopeData.mk ["a.com", "b.com"] ["x.com"]).calculate_checksum ∧
    ScopeComparator.compare (ScopeData.mk ["b.com", "a.com"] ["x.com"])
      (ScopeData.mk ["a.com", "b.com"] ["x.com"]) =
      Except.error checksumAttrError :=
  ⟨compare_checksum_method_missing.1 _ _ (by decide) (by decide),
   compare_checksum_method_missing.2 _ _⟩

/-- **C6.** For an existing asset, a `content_length` change is reported
iff the stored length is positive and the relative change strictly
exceeds 10%; in particular 1000→1100 is not reported, 1000→1101 is, and
0→500 is not. -/
theorem content_length_threshold :
    (∀ (a : Asset) (nd : NewData) (v : Option Int), nd.content_length = some v →
      ("content_length" ∈ detect_changes a nd ↔
        (0 < a.content_length.getD 0 ∧
          (1 : ℚ) / 10 <
            ((v.getD 0 - a.content_length.getD 0).natAbs : ℚ) /
              ((a.content_length.getD 0 : Int) : ℚ)))) ∧
    "content_length" ∉ detect_changes asset1000 nd1100 ∧
    "content_length" ∈ detect_changes asset1000 nd1101 ∧
    "content_length" ∉ detect_changes asset0 nd500 := by
  refine ⟨?_, by decide, by decide, by decide⟩
  intro a nd v h
  rw [mem_detect_changes_content, contentLengthChanges_eq a v nd h]
  set old := a.content_length.getD 0 with hold
  set nv := v.getD 0 with hnv
  split_ifs with hsig
  · unfold contentLengthSignificant at hsig
    rw [Bool.and_eq_true, decide_eq_true_iff, decide_eq_true_iff] at hsig
    obtain ⟨h1, h2⟩ := hsig
    have holdq : (0 : ℚ) < ((old : Int) : ℚ) := by exact_mod_cast h1
    simp only [List.mem_singleton, true_iff]
    refine ⟨h1, ?_⟩
    rw [div_lt_div_iff₀ (by norm_num) holdq]
    have h2q : ((old : Int) : ℚ) < 10 * (((nv - old).natAbs : Int) : ℚ) := by
      exact_mod_cast h2
    push_cast [Int.cast_natAbs] at h2q ⊢
    linarith
  · simp only [List.not_mem_nil, false_iff, not_and]
    intro h1 hq
    apply hsig
    unfold contentLengthSignificant
    rw [Bool.and_eq_true, decide_eq_true_iff, decide_eq_true_iff]
    refine ⟨h1, ?_⟩
    have holdq : (0 : ℚ) < ((old : Int) : ℚ) := by exact_mod_cast h1
    rw [div_lt_div_iff₀ (by norm_num) holdq] at hq
    have : ((old : Int) : ℚ) < 10 * (((nv - old).natAbs : Int) : ℚ) := by
      push_cast [Int.cast_natAbs] at hq ⊢
      linarith
    exact_mod_cast this

/-- Witness for `content_length_threshold`: the 1000→1101 probe is
reported through the full `_detect_changes` pipeline. -/
theorem content_length_threshold_witness :
    "content_length" ∈ detect_changes asset1000 nd1101 :=
  (content_length_threshold.1 asset1000 nd1101 (some 1101) rfl).mpr
    (by constructor <;> [decide; norm_num [asset1000, nd1101]])

/-- **C9.** `should_scan` evaluates its rules in the fixed source order —
force, first-seen-within-5-minutes, updated-within-1-hour, dead-asset,
last-seen-over-24-hours, skip default — so a brand-new dead asset is
still scanned with the new-asset reason. -/
theorem should_scan_rule_order (a : Asset) (now : Int) :
    should_scan a true now = (true, "Force scan requested") ∧
    (now - a.first_seen < 300 →
      should_scan a false now = (true, "New asset (first scan)")) ∧
    (300 ≤ now - a.first_seen → now - a.updated_at < 3600 →
      should_scan a false now = (true, "Recently modified asset")) ∧
    (300 ≤ now - a.first_seen → 3600 ≤ now - a.updated_at → a.is_alive = false →
      should_scan a false now = (false, "Asset is no longer alive")) ∧
    (300 ≤ now - a.first_seen → 3600 ≤ now - a.updated_at → a.is_alive = true →
      86400 < now - a.last_seen →
      should_scan a false now = (true, "Periodic scan (24h)")) ∧
    (300 ≤ now - a.first_seen → 3600 ≤ now - a.updated_at → a.is_alive = true →
      now - a.last_seen ≤ 86400 →
      should_scan a false now = (false, "No changes detected, skip scan")) := by
  refine ⟨by simp [should_scan], ?_, ?_, ?_, ?_, ?_⟩
  · intro h1
    simp [should_scan, h1]
  · intro h1 h2
    have h1' : ¬(now - a.first_seen < 300) := by omega
    simp [should_scan, h1', h2]
  · intro h1 h2 h3
    have h1' : ¬(now - a.first_seen < 300) := by omega
    have h2' : ¬(now - a.updated_at < 3600) := by omega
    simp [should_scan, h1', h2', h3]
  · intro h1 h2 h3 h4
    have h1' : ¬(now - a.first_seen < 300) := by omega
    have h2' : ¬(now - a.updated_at < 3600) := by omega
    simp [should_scan, h1', h2', h3, h4]
  · intro h1 h2 h3 h4
    have h1' : ¬(now - a.first_seen < 300) := by omega
    have h2' : ¬(now - a.updated_at < 3600) := by omega
    have h4' : ¬(86400 < now - a.last_seen) := by omega
    simp [should_scan, h1', h2', h3, h4']

/-- Witness for `should_scan_rule_order`: a one-minute-old dead asset is
scanned as a new asset (rule 2 precedes rule 4). -/
theorem should_scan_rule_order_witness :
    should_scan ⟨none, none, none, none, none, none, none, false, 0, 0, 0⟩ false 60 =
      (true, "New asset (first scan)") :=
  (should_scan_rule_order ⟨none, none, none, none, none, none, none, false, 0, 0, 0⟩ 60).2.1
    (by decide)

/-- The committed row of `compare_and_update_existing`, written out. -/
theorem compare_and_update_fst (a : Asset) (nd : NewData) (now : Int) :
    (compare_and_update_existing a nd now).1 =
      flushAsset a (applyNewData (create_or_update_existing a now) nd) now := rfl

/-- Fixture: a stored asset last seen and updated at time 10, with stored
`http_status = 200`. -/
def assetReprobe : Asset := ⟨none, none, some 200, none, none, none, none, true, 0, 10, 10⟩

/-- Fixture: a probe record that repeats the stored `http_status` — a
no-op re-probe. -/
def ndReprobe : NewData := { http_status := some (some 200) }

/-- **C3 counterexample.**  A no-op re-probe at time 100 of an asset whose
probe data equals its stored state produces an empty `changed_fields`
list, yet the committed row's `updated_at` moves from 10 to 100: the
unconditional `last_seen = utcnow()` write in
`AssetRepository.create_or_update` dirties the row, and the
`onupdate=func.now()` column refreshes `updated_at` on the flush.  This
refutes the claim that `updated_at` is unchanged on a no-op re-probe. -/
theorem updated_at_advances_on_noop_reprobe :
    (compare_and_update_existing assetReprobe ndReprobe 100).2 = [] ∧
    assetReprobe.updated_at = 10 ∧
    (compare_and_update_existing assetReprobe ndReprobe 100).1.updated_at = 100 := by
  decide

/-- **C3 amended.**  On every re-probe of an existing asset, `last_seen`
is set to the observation time and `first_seen` is untouched (so
`first_seen ≤ last_seen` holds whenever the clock has not run backwards);
but `updated_at` advances on any re-probe whose observation time differs
from the stored `last_seen` — materially changed or not — because the
unconditional `last_seen` write makes the row dirty and
`onupdate=func.now()` refreshes `updated_at` on every flushed update. -/
theorem asset_timestamps_amended (a : Asset) (nd : NewData) (now : Int) :
    (compare_and_update_existing a nd now).1.last_seen = now ∧
    (compare_and_update_existing a nd now).1.first_seen = a.first_seen ∧
    (a.first_seen ≤ now →
      (compare_and_update_existing a nd now).1.first_seen ≤
        (compare_and_update_existing a nd now).1.last_seen) ∧
    (now ≠ a.last_seen →
      (compare_and_update_existing a nd now).1.updated_at = now) := by
  simp only [compare_and_update_fst]
  unfold flushAsset
  by_cases heq : applyNewData (create_or_update_existing a now) nd = a
  · rw [if_pos heq]
    refine ⟨rfl, rfl, fun h => h, fun h => ?_⟩
    exact absurd (congrArg Asset.last_seen heq) h
  · rw [if_neg heq]
    exact ⟨rfl, rfl, fun h => h, fun _ => rfl⟩

/-- Witness for `asset_timestamps_amended` on the concrete no-op
re-probe. -/
theorem asset_timestamps_amended_witness :
    (compare_and_update_existing assetReprobe ndReprobe 100).1.first_seen ≤
      (compare_and_update_existing assetReprobe ndReprobe 100).1.last_seen ∧
    (compare_and_update_existing assetReprobe ndReprobe 100).1.updated_at = 100 :=
  ⟨(asset_timestamps_amended assetReprobe ndReprobe 100).2.2.1 (by decide),
   (asset_timestamps_amended assetReprobe ndReprobe 100).2.2.2 (by decide)⟩

/-- Fixture: a stored asset that is currently marked dead. -/
def deadAsset : Asset := ⟨none, none, none, none, none, none, none, false, 0, 10, 10⟩

/-- **C5 counterexample.**  A call whose probe record contains no keys at
all — in particular no `is_alive` key — still flips the stored
`is_alive` from `False` to `True`, because
`AssetRepository.create_or_update` sets `is_alive = True` unconditionally
on every re-probe.  This refutes the claim that every stored field absent
from `new_data` keeps its stored value. -/
theorem noop_reprobe_flips_is_alive :
    ({} : NewData).is_alive = none ∧
    deadAsset.is_alive = false ∧
    (compare_and_update_existing deadAsset {} 100).1.is_alive = true := by
  decide

/-- **C5 amended.**  Partial-update semantics hold for the probe-data
fields: each of `http_status`, `content_length`, `technologies`,
`page_title`, `response_hash`, `resolved_ips` and `cnames` keeps its
stored value when its key is absent from `new_data`, and `first_seen` is
never touched.  The exceptions are exactly the repository's unconditional
writes: `is_alive` is forced to `True` when absent from the probe, and
`last_seen` is always set to the observation time (with `updated_at`
refreshed by the ORM whenever the row is dirty). -/
theorem absent_fields_frame_amended (a : Asset) (nd : NewData) (now : Int) :
    (nd.http_status = none →
      (compare_and_update_existing a nd now).1.http_status = a.http_status) ∧
    (nd.content_length = none →
      (compare_and_update_existing a nd now).1.content_length = a.content_length) ∧
    (nd.technologies = none →
      (compare_and_update_existing a nd now).1.technologies = a.technologies) ∧
    (nd.page_title = none →
      (compare_and_update_existing a nd now).1.page_title = a.page_title) ∧
    (nd.response_hash = none →
      (compare_and_update_existing a nd now).1.response_hash = a.response_hash) ∧
    (nd.resolved_ips = none →
      (compare_and_update_existing a nd now).1.resolved_ips = a.resolved_ips) ∧
    (nd.cnames = none →
      (compare_and_update_existing a nd now).1.cnames = a.cnames) ∧
    (compare_and_update_existing a nd now).1.first_seen = a.first_seen ∧
    (nd.is_alive = none →
      (compare_and_update_existing a nd now).1.is_alive = true) ∧
    (compare_and_update_existing a nd now).1.last_seen = now := by
  obtain ⟨f1, f2, f3, f4, f5, f6, f7, f8, f9, f10⟩ :=
    flushAsset_fields a (applyNewData (create_or_update_existing a now) nd) now
  simp only [compare_and_update_fst]
  refine ⟨fun h => ?_, fun h => ?_, fun h => ?_, fun h => ?_, fun h => ?_,
    fun h => ?_, fun h => ?_, ?_, fun h => ?_, ?_⟩
  · rw [f3]; simp [applyNewData, create_or_update_existing, h]
  · rw [f4]; simp [applyNewData, create_or_update_existing, h]
  · rw [f6]; simp [applyNewData, create_or_update_existing, h]
  · rw [f5]; simp [applyNewData, create_or_update_existing, h]
  · rw [f7]; simp [applyNewData, create_or_update_existing, h]
  · rw [f1]; simp [applyNewData, create_or_update_existing, h]
  · rw [f2]; simp [applyNewData, create_or_update_existing, h]
  · rw [f9]; rfl
  · rw [f8]; simp [applyNewData, create_or_update_existing, h]
  · rw [f10]; rfl

/-- Witness for `absent_fields_frame_amended` on the all-keys-absent
probe of the dead asset. -/
theorem absent_fields_frame_amended_witness :
    (compare_and_update_existing deadAsset {} 100).1.http_status = deadAsset.http_status ∧
    (compare_and_update_existing deadAsset {} 100).1.is_alive = true :=
  ⟨(absent_fields_frame_amended deadAsset {} 100).1 rfl,
   (absent_fields_frame_amended deadAsset {} 100).2.2.2.2.2.2.2.2.1 rfl⟩

/-- **C7 counterexample.**  With `example.com` the only in-scope entry,
validating `"example.com"` is in scope but validating
`"https://example.com/"` is not: `validate` does not strip the scheme
prefix or the trailing slash from its candidate, so the two classifications
differ, refuting the claimed normalisation. -/
theorem validate_does_not_strip_scheme :
    ((mkValidator ⟨["example.com"], []⟩).validate "example.com").in_scope = true ∧
    ((mkValidator ⟨["example.com"], []⟩).validate "https://example.com/").in_scope = false := by
  decide

/-- **C7 amended.**  The only candidate normalisation `validate` performs
is `asset.lower().strip()`: two candidates with the same lowercased,
whitespace-stripped form receive the same classification, reason and
matched rule.  (Scheme-prefix and trailing-slash stripping happen only in
`BaseScopeParser.normalize_scope_item`, applied to scope items at parse
time, not to candidates.) -/
theorem validate_normalizes_lower_strip_only (v : ScopeValidator) (a b : String)
    (h : normalizeAsset a = normalizeAsset b) :
    (v.validate a).in_scope = (v.validate b).in_scope ∧
    (v.validate a).reason = (v.validate b).reason ∧
    (v.validate a).matched_rule = (v.validate b).matched_rule := by
  unfold ScopeValidator.validate
  rw [h]
  exact ⟨rfl, rfl, rfl⟩

/-- Witness for `validate_normalizes_lower_strip_only`: mixed case and
leading whitespace do not affect the result. -/
theorem validate_normalizes_lower_strip_only_witness :
    ((mkValidator ⟨["example.com"], []⟩).validate "  Example.COM").in_scope =
      ((mkValidator ⟨["example.com"], []⟩).validate "example.com").in_scope :=
  (validate_normalizes_lower_strip_only (mkValidator ⟨["example.com"], []⟩)
    "  Example.COM" "example.com" (by decide)).1

/-- If the normalised candidate matches any out-of-scope rule, the
classification is negative: the out-of-scope buckets are checked first
and each hit returns immediately. -/
theorem validateNormalized_out (v : ScopeValidator) (al : String)
    (h : outMatches v al = true) : (validateNormalized v al).1 = false := by
  unfold outMatches at h
  unfold validateNormalized
  cases hex : v.outRules.exactSet.contains al with
  | true => simp [hex]
  | false =>
    rw [hex] at h
    simp only [Bool.false_or] at h
    cases hf : findPattern v.outRules.patterns al with
    | some rule => simp [hex, hf]
    | none =>
      have hpat : v.outRules.patterns.any (fun r => globMatch r.data al.data) = false := by
        unfold findPattern at hf
        rw [List.any_eq_false]
        intro r hr
        simpa using List.find?_eq_none.mp hf r hr
      rw [hpat] at h
      simp only [Bool.false_or] at h
      cases hc : cidrLookup v.outRules.cidrs al with
      | some rn => simp [hex, hf, hc]
      | none => rw [hc] at h; simp at h

/-- **C1.** Exclusions always win: any candidate whose normalised form
matches an out-of-scope rule — exact, wildcard or CIDR — is classified
out of scope, regardless of any in-scope rule or subdomain relationship
it also satisfies (the out-of-scope buckets are tested before all
in-scope ones). -/
theorem validate_exclusion_precedence (sd : ScopeData) (asset : String)
    (h : outMatches (mkValidator sd) (normalizeAsset asset) = true) :
    ((mkValidator sd).validate asset).in_scope = false := by
  have := validateNormalized_out (mkValidator sd) (normalizeAsset asset) h
  unfold ScopeValidator.validate
  exact this

/-- Witness for `validate_exclusion_precedence`: `internal.example.com`
is an exact out-of-scope entry, a subdomain of the exact in-scope entry
`example.com`, and a match of the in-scope wildcard `*.example.com` —
and is classified out of scope. -/
theorem validate_exclusion_precedence_witness :
    outMatches (mkValidator ⟨["example.com", "*.example.com"], ["internal.example.com"]⟩)
      (normalizeAsset "internal.example.com") = true ∧
    ((mkValidator ⟨["example.com", "*.example.com"], ["internal.example.com"]⟩).validate
      "internal.example.com").in_scope = false :=
  ⟨by decide,
   validate_exclusion_precedence ⟨["example.com", "*.example.com"], ["internal.example.com"]⟩
     "internal.example.com" (by decide)⟩

/-- **C8.** A rule that is not a wildcard (`*`-free), contains a `/`, and
does not parse as a CIDR network is dropped silently during compilation:
it changes no rule bucket (`_categorize_rule` returns the state
unchanged, logging a warning instead of raising), and appending it to
both scope lists leaves every validation outcome untouched — it can never
match any candidate. -/
theorem malformed_scope_rule_dropped (rule : String) (rs : RuleSet) (sd : ScopeData)
    (asset : String)
    (h1 : containsChar rule '*' = false) (h2 : containsChar rule '/' = true)
    (h3 : parseNetwork rule = none) :
    categorizeRule rule rs = rs ∧
    (mkValidator ⟨sd.in_scope ++ [rule], sd.out_of_scope ++ [rule]⟩).validate asset =
      (mkValidator sd).validate asset := by
  have hc : ∀ rs0 : RuleSet, categorizeRule rule rs0 = rs0 := by
    intro rs0
    unfold categorizeRule
    simp [h1, h2, h3]
  have hcompile : ∀ items : List String, compileRules (items ++ [rule]) = compileRules items := by
    intro items
    unfold compileRules
    rw [List.foldl_append]
    simp [hc]
  refine ⟨hc rs, ?_⟩
  unfold mkValidator
  rw [show (ScopeData.mk (sd.in_scope ++ [rule]) (sd.out_of_scope ++ [rule])).in_scope =
    sd.in_scope ++ [rule] from rfl]
  rw [show (ScopeData.mk (sd.in_scope ++ [rule]) (sd.out_of_scope ++ [rule])).out_of_scope =
    sd.out_of_scope ++ [rule] from rfl]
  rw [hcompile sd.in_scope, hcompile sd.out_of_scope]

/-- Witness for `malformed_scope_rule_dropped` at the unparsable CIDR
`999.0.0.0/8`. -/
theorem malformed_scope_rule_dropped_witness :
    categorizeRule "999.0.0.0/8" emptyRuleSet = emptyRuleSet ∧
    (mkValidator ⟨["example.com"] ++ ["999.0.0.0/8"], [] ++ ["999.0.0.0/8"]⟩).validate
        "api.example.com" =
      (mkValidator ⟨["example.com"], []⟩).validate "api.example.com" :=
  malformed_scope_rule_dropped "999.0.0.0/8" emptyRuleSet ⟨["example.com"], []⟩
    "api.example.com" (by decide) (by decide) (by decide)

theorem compareBody_changes (p c : ScopeData) :
    (compareBody p c).changes =
      (pySetDiff c.in_scope p.in_scope).map (phase1Change p.out_of_scope) ++
        (pySetDiff p.in_scope c.in_scope).filterMap
          (phase2Change p.out_of_scope c.out_of_scope) ++
        (pySetDiff c.out_of_scope p.out_of_scope).filterMap (phase3Change p.in_scope) ++
        (pySetDiff p.out_of_scope c.out_of_scope).filterMap (phase4Change c.in_scope) := rfl

theorem compareBody_additions (p c : ScopeData) :
    (compareBody p c).additions =
      (pySetDiff c.in_scope p.in_scope).filterMap
          (fun i => if i ∈ p.out_of_scope then none else some (addedInChange i)) ++
        (pySetDiff c.out_of_scope p.out_of_scope).filterMap (phase3Change p.in_scope) := rfl

theorem compareBody_removals (p c : ScopeData) :
    (compareBody p c).removals =
      (pySetDiff p.in_scope c.in_scope).filterMap
          (fun i => if i ∈ c.out_of_scope then none else some (removedInChange i)) ++
        (pySetDiff p.out_of_scope c.out_of_scope).filterMap (phase4Change c.in_scope) := rfl

theorem compareBody_modifications (p c : ScopeData) :
    (compareBody p c).modifications =
      (pySetDiff c.in_scope p.in_scope).filterMap
          (fun i => if i ∈ p.out_of_scope then some (movedInChange i) else none) ++
        (pySetDiff p.in_scope c.in_scope).filterMap (fun i =>
          if i ∈ c.out_of_scope ∧ i ∉ p.out_of_scope then some (movedOutChange i)
          else none) := rfl

theorem changes1_item {xs ys po : List String} {ch : ScopeChange}
    (h : ch ∈ (pySetDiff xs ys).map (phase1Change po)) :
    ch.item ∈ xs ∧ ch.item ∉ ys := by
  obtain ⟨i, hi, rfl⟩ := List.mem_map.mp h
  rw [phase1Change_item]
  exact mem_pySetDiff.mp hi

theorem changes2_item {xs ys po co : List String} {ch : ScopeChange}
    (h : ch ∈ (pySetDiff xs ys).filterMap (phase2Change po co)) :
    ch.item ∉ ys ∧ ¬(ch.item ∈ co ∧ ch.item ∈ po) := by
  obtain ⟨i, hi, hg⟩ := List.mem_filterMap.mp h
  rw [phase2Change_item hg]
  refine ⟨(mem_pySetDiff.mp hi).2, ?_⟩
  rintro ⟨h1, h2⟩
  rw [phase2Change_none h1 h2] at hg
  cases hg

theorem changes3_item {xs ys pi0 : List String} {ch : ScopeChange}
    (h : ch ∈ (pySetDiff xs ys).filterMap (phase3Change pi0)) : ch.item ∉ ys := by
  obtain ⟨i, hi, hg⟩ := List.mem_filterMap.mp h
  rw [(phase3Change_item hg).1]
  exact (mem_pySetDiff.mp hi).2

theorem changes4_item {xs ys ci : List String} {ch : ScopeChange}
    (h : ch ∈ (pySetDiff xs ys).filterMap (phase4Change ci)) :
    ch.item ∉ ys ∧ ch.item ∉ ci := by
  obtain ⟨i, hi, hg⟩ := List.mem_filterMap.mp h
  rw [(phase4Change_item hg).1]
  exact ⟨(mem_pySetDiff.mp hi).2, (phase4Change_item hg).2⟩

theorem addsLeft_item {xs ys po : List String} {ch : ScopeChange}
    (h : ch ∈ (pySetDiff xs ys).filterMap
      (fun i => if i ∈ po then none else some (addedInChange i))) :
    ch.item ∈ xs ∧ ch.item ∉ po := by
  obtain ⟨i, hi, hg⟩ := List.mem_filterMap.mp h
  by_cases hp : i ∈ po
  · rw [if_pos hp] at hg; cases hg
  · rw [if_neg hp] at hg
    cases hg
    exact ⟨(mem_pySetDiff.mp hi).1, hp⟩

theorem remsLeft_item {xs ys co : List String} {ch : ScopeChange}
    (h : ch ∈ (pySetDiff xs ys).filterMap
      (fun i => if i ∈ co then none else some (removedInChange i))) :
    ch.item ∉ ys ∧ ch.item ∉ co := by
  obtain ⟨i, hi, hg⟩ := List.mem_filterMap.mp h
  by_cases hp : i ∈ co
  · rw [if_pos hp] at hg; cases hg
  · rw [if_neg hp] at hg
    cases hg
    exact ⟨(mem_pySetDiff.mp hi).2, hp⟩

theorem modsLeft_item {xs ys po : List String} {ch : ScopeChange}
    (h : ch ∈ (pySetDiff xs ys).filterMap
      (fun i => if i ∈ po then some (movedInChange i) else none)) :
    ch.item ∈ xs ∧ ch.item ∉ ys := by
  obtain ⟨i, hi, hg⟩ := List.mem_filterMap.mp h
  by_cases hp : i ∈ po
  · rw [if_pos hp] at hg
    cases hg
    exact mem_pySetDiff.mp hi
  · rw [if_neg hp] at hg; cases hg

theorem modsRight_item {xs ys po co : List String} {ch : ScopeChange}
    (h : ch ∈ (pySetDiff xs ys).filterMap (fun i =>
      if i ∈ co ∧ i ∉ po then some (movedOutChange i) else none)) :
    ch.item ∉ ys ∧ ch.item ∉ po := by
  obtain ⟨i, hi, hg⟩ := List.mem_filterMap.mp h
  by_cases hp : i ∈ co ∧ i ∉ po
  · rw [if_pos hp] at hg
    cases hg
    exact ⟨(mem_pySetDiff.mp hi).2, hp.2⟩
  · rw [if_neg hp] at hg; cases hg

/-- The diff body emits, for an item moving from out-of-scope to
in-scope, exactly one change — the `modified` one — and never lists it as
an addition or removal. -/
theorem compareBody_move (p c : ScopeData) (item : String)
    (hpo : item ∈ p.out_of_scope) (hci : item ∈ c.in_scope) (hpi : item ∉ p.in_scope) :
    (compareBody p c).changes.countP (fun ch => ch.item == item) = 1 ∧
    movedInChange item ∈ (compareBody p c).changes ∧
    movedInChange item ∈ (compareBody p c).modifications ∧
    (∀ ch ∈ (compareBody p c).additions, ch.item ≠ item) ∧
    (∀ ch ∈ (compareBody p c).removals, ch.item ≠ item) := by
  have hd1 : item ∈ pySetDiff c.in_scope p.in_scope := mem_pySetDiff.mpr ⟨hci, hpi⟩
  refine ⟨?_, ?_, ?_, ?_, ?_⟩
  · rw [compareBody_changes]
    simp only [List.countP_append]
    have h1 : ((pySetDiff c.in_scope p.in_scope).map (phase1Change p.out_of_scope)).countP
        (fun ch => ch.item == item) = 1 := by
      rw [List.countP_map]
      have hcongr : ∀ i ∈ pySetDiff c.in_scope p.in_scope,
          (((fun ch => ch.item == item) ∘ phase1Change p.out_of_scope) i = true ↔
            (fun i => i == item) i = true) := by
        intro i _
        simp [Function.comp, phase1Change_item]
      rw [List.countP_congr hcongr]
      have := List.count_eq_one_of_mem (nodup_pySetDiff c.in_scope p.in_scope) hd1
      simpa [List.count] using this
    have h2 : ((pySetDiff p.in_scope c.in_scope).filterMap
        (phase2Change p.out_of_scope c.out_of_scope)).countP
        (fun ch => ch.item == item) = 0 := by
      rw [List.countP_eq_zero]
      intro ch hch
      simp only [beq_iff_eq]
      intro heq
      subst heq
      exact (changes2_item hch).1 hci
    have h3 : ((pySetDiff c.out_of_scope p.out_of_scope).filterMap
        (phase3Change p.in_scope)).countP (fun ch => ch.item == item) = 0 := by
      rw [List.countP_eq_zero]
      intro ch hch
      simp only [beq_iff_eq]
      intro heq
      subst heq
      exact changes3_item hch hpo
    have h4 : ((pySetDiff p.out_of_scope c.out_of_scope).filterMap
        (phase4Change c.in_scope)).countP (fun ch => ch.item == item) = 0 := by
      rw [List.countP_eq_zero]
      intro ch hch
      simp only [beq_iff_eq]
      intro heq
      subst heq
      exact (changes4_item hch).2 hci
    omega
  · rw [compareBody_changes]
    refine List.mem_append.mpr (Or.inl (List.mem_append.mpr (Or.inl
      (List.mem_append.mpr (Or.inl ?_)))))
    refine List.mem_map.mpr ⟨item, hd1, ?_⟩
    unfold phase1Change
    rw [if_pos hpo]
  · rw [compareBody_modifications]
    refine List.mem_append.mpr (Or.inl ?_)
    refine List.mem_filterMap.mpr ⟨item, hd1, ?_⟩
    rw [if_pos hpo]
  · rw [compareBody_additions]
    intro ch hch heq
    subst heq
    rcases List.mem_append.mp hch with hch | hch
    · exact (addsLeft_item hch).2 hpo
    · exact changes3_item hch hpo
  · rw [compareBody_removals]
    intro ch hch heq
    subst heq
    rcases List.mem_append.mp hch with hch | hch
    · exact (remsLeft_item hch).1 hci
    · exact (changes4_item hch).2 hci

/-- The diff body emits nothing at all for an item that was listed in
both previous lists and now appears only in the current out-of-scope
list. -/
theorem compareBody_shadowed (p c : ScopeData) (item : String)
    (hpi : item ∈ p.in_scope) (hpo : item ∈ p.out_of_scope)
    (hco : item ∈ c.out_of_scope) (hci : item ∉ c.in_scope) :
    (∀ ch ∈ (compareBody p c).changes, ch.item ≠ item) ∧
    (∀ ch ∈ (compareBody p c).additions, ch.item ≠ item) ∧
    (∀ ch ∈ (compareBody p c).removals, ch.item ≠ item) ∧
    (∀ ch ∈ (compareBody p c).modifications, ch.item ≠ item) := by
  refine ⟨?_, ?_, ?_, ?_⟩
  · rw [compareBody_changes]
    intro ch hch heq
    subst heq
    rcases List.mem_append.mp hch with hch | hch
    · rcases List.mem_append.mp hch with hch | hch
      · rcases List.mem_append.mp hch with hch | hch
        · exact hci (changes1_item hch).1
        · exact (changes2_item hch).2 ⟨hco, hpo⟩
      · exact changes3_item hch hpo
    · exact (changes4_item hch).1 hco
  · rw [compareBody_additions]
    intro ch hch heq
    subst heq
    rcases List.mem_append.mp hch with hch | hch
    · exact hci (addsLeft_item hch).1
    · exact changes3_item hch hpo
  · rw [compareBody_removals]
    intro ch hch heq
    subst heq
    rcases List.mem_append.mp hch with hch | hch
    · exact (remsLeft_item hch).2 hco
    · exact (changes4_item hch).1 hco
  · rw [compareBody_modifications]
    intro ch hch heq
    subst heq
    rcases List.mem_append.mp hch with hch | hch
    · exact hci (modsLeft_item hch).1
    · exact (modsRight_item hch).2 hpo

/-- **C4.** The claim describes the move-conservation behaviour of
`ScopeComparator.compare` for an item moving out-of-scope → in-scope.
The set-difference diff the claim cites (`compareBody`, comparator.py
lines 119-137 and 162-184) does behave exactly as claimed — exactly one
change, the `modified` one with `(from, to) = (out_of_scope, in_scope)`,
listed in `modifications` and in neither `additions` nor `removals`
(second conjunct) — but `compare` itself never reaches it: its checksum
attribute lookup raises `AttributeError` on every call, move scenarios
included (first conjunct). -/
theorem compare_move_scenario :
    (ScopeComparator.compare ⟨[], ["app.example.com"]⟩ ⟨["app.example.com"], []⟩ =
      Except.error checksumAttrError) ∧
    (∀ (p c : ScopeData) (item : String),
      item ∈ p.out_of_scope → item ∈ c.in_scope → item ∉ p.in_scope →
      (compareBody p c).changes.countP (fun ch => ch.item == item) = 1 ∧
      movedInChange item ∈ (compareBody p c).changes ∧
      movedInChange item ∈ (compareBody p c).modifications ∧
      (∀ ch ∈ (compareBody p c).additions, ch.item ≠ item) ∧
      (∀ ch ∈ (compareBody p c).removals, ch.item ≠ item)) :=
  ⟨rfl, compareBody_move⟩

/-- Witness for `compare_move_scenario`: `app.example.com` moving
out-of-scope → in-scope yields exactly one change, the recorded move. -/
theorem compare_move_scenario_witness :
    (compareBody ⟨[], ["app.example.com"]⟩ ⟨["app.example.com"], []⟩).changes.countP
        (fun ch => ch.item == "app.example.com") = 1 ∧
    movedInChange "app.example.com" ∈
      (compareBody ⟨[], ["app.example.com"]⟩ ⟨["app.example.com"], []⟩).modifications :=
  ⟨(compare_move_scenario.2 ⟨[], ["app.example.com"]⟩ ⟨["app.example.com"], []⟩
      "app.example.com" (by decide) (by decide) (by decide)).1,
   (compare_move_scenario.2 ⟨[], ["app.example.com"]⟩ ⟨["app.example.com"], []⟩
      "app.example.com" (by decide) (by decide) (by decide)).2.2.1⟩

/-- **C10.** The claim describes an item listed in both previous lists
that now appears only in the current out-of-scope list: the diff body
(the cited comparator.py lines 139-160 and 174-184) emits no change at
all for it — phase 2 skips it because it was already out-of-scope before,
and phases 1, 3, 4 never select it (second conjunct).  `compare` itself,
however, raises `AttributeError` before reaching that logic on every
call, this scenario included (first conjunct). -/
theorem compare_shadowed_item_scenario :
    (ScopeComparator.compare ⟨["x.example.com"], ["x.example.com"]⟩ ⟨[], ["x.example.com"]⟩ =
      Except.error checksumAttrError) ∧
    (∀ (p c : ScopeData) (item : String),
      item ∈ p.in_scope → item ∈ p.out_of_scope → item ∈ c.out_of_scope →
      item ∉ c.in_scope →
      (∀ ch ∈ (compareBody p c).changes, ch.item ≠ item) ∧
      (∀ ch ∈ (compareBody p c).additions, ch.item ≠ item) ∧
      (∀ ch ∈ (compareBody p c).removals, ch.item ≠ item) ∧
      (∀ ch ∈ (compareBody p c).modifications, ch.item ≠ item)) :=
  ⟨rfl, compareBody_shadowed⟩

/-- Witness for `compare_shadowed_item_scenario`: the disappearance of
`x.example.com` from the in-scope list is not reported as a removal. -/
theorem compare_shadowed_item_scenario_witness :
    removedOutChange "x.example.com" ∉
      (compareBody ⟨["x.example.com"], ["x.example.com"]⟩ ⟨[], ["x.example.com"]⟩).changes :=
  fun hmem =>
    (compare_shadowed_item_scenario.2 ⟨["x.example.com"], ["x.example.com"]⟩
      ⟨[], ["x.example.com"]⟩ "x.example.com" (by decide) (by decide) (by decide)
      (by decide)).1 (removedOutChange "x.example.com") hmem rfl

end BugBounty
